import Mathlib

/-!
Shallow embedding of the agent negotiation core of the `python-agents`
sources (`fridge_agent_adk.py`, `homehub_agent_adk.py`,
`advanced_adk_example.py`), together with theorems settling the frozen
claims about the natural-language specification.

Modelling conventions:
* Python dict payloads become association lists `List (String × PyVal)`.
* Python exceptions become `Except PyErr`; a function that cannot raise is
  a plain function.
* Monetary amounts and quantities are `ℚ` (the source only uses exact
  decimal literals, so rational arithmetic coincides with the float
  arithmetic performed there).
* External collaborators that are nondeterministic in the source
  (wall-clock message ids, `random.choice` success texts, `hash`-seeded
  fallback texts, the network client) are taken as explicit parameters;
  they never influence the control flow under verification, matching §6
  of the specification ("never influences control flow").
-/

/-- A structured Python value as it appears in message payloads:
strings, numbers, nested dicts and `None`. -/
inductive PyVal where
  | str (s : String)
  | num (q : ℚ)
  | dict (fields : List (String × PyVal))
  | pynone

/-- Python runtime errors raised by the embedded code. -/
inductive PyErr where
  | attributeError (attr : String)
  | keyError (key : String)
deriving DecidableEq, Repr

/-- A Python dict payload (string keys, structured values). -/
abbrev PyDict := List (String × PyVal)

/-- `d.get(k)`: first binding of key `k`, if any. -/
def pyGet : PyDict → String → Option PyVal
  | [], _ => none
  | (k', v) :: rest, k => if k' == k then some v else pyGet rest k

/-- Python truthiness of a structured value (`if v:`). -/
def pyTruthy : PyVal → Bool
  | .str s => decide (s ≠ "")
  | .num q => decide (q ≠ 0)
  | .dict l => !l.isEmpty
  | .pynone => false

/-- Truthiness of the result of a `.get` (absent key is falsy, like `None`). -/
def pyTruthyOpt : Option PyVal → Bool
  | some v => pyTruthy v
  | none => false

/-- Truthiness of an optional string (e.g. an environment variable). -/
def pyTruthyStr : Option String → Bool
  | some s => decide (s ≠ "")
  | none => false

/-- Project a value expected by the protocol to be a string.  Every value
the negotiation code stores in the fields so projected is a string. -/
def pyAsString : PyVal → String
  | .str s => s
  | _ => ""

/-- Project a value expected by the protocol to be a number. -/
def pyAsNum : PyVal → ℚ
  | .num q => q
  | _ => 0

/-- Project a value expected by the protocol to be a dict. -/
def pyAsDict : PyVal → PyDict
  | .dict d => d
  | _ => []

/-- Embed an `Optional[str]` (e.g. `os.getenv`) as a payload value. -/
def optStrVal : Option String → PyVal
  | some s => .str s
  | none => .pynone

/-- `Message` dataclass of `fridge_agent_adk.py` (lines 19-31). -/
structure Message where
  id : String
  sender_id : String
  recipient_id : String
  message_type : String
  content : PyDict

/-- `Agent.send_message` (fridge_agent_adk.py lines 73-83): constructs an
outbound message.  The source derives `id` from the wall clock
(`f"msg_..."`); no claim concerns ids, so a fixed placeholder is used. -/
def Agent.send_message (sender_id recipient_id message_type : String)
    (content : PyDict) : Message :=
  { id := "msg", sender_id := sender_id, recipient_id := recipient_id,
    message_type := message_type, content := content }

/-- `Agent.handle_message` (fridge_agent_adk.py lines 64-71): dispatch on
the registered handler table; an unregistered message type is logged and
yields no response, without raising. -/
def Agent.handle_message
    (handlers : String → Option (Message → Except PyErr (Option Message)))
    (message : Message) : Except PyErr (Option Message) :=
  match handlers message.message_type with
  | some h => h message
  | none => .ok none

/-- `AptosPaymentService` (fridge_agent_adk.py lines 86-108).  The
constructor assigns exactly the attributes below (plus a logger); in
particular it never assigns a `client` attribute. -/
structure AptosPaymentService where
  network : String
  service_price : ℚ
  seller_address : Option String
  base_url : Option String

/-- `AptosPaymentService.__init__` (lines 89-108): `requests` imports
successfully in the deployed environment, so the `try` body runs and
`base_url` is chosen from the network name. -/
def AptosPaymentService.init (network : String) (seller_address : Option String) :
    AptosPaymentService :=
  { network := network
  , service_price := 0.1
  , seller_address := seller_address
  , base_url := some (if network == "devnet" then
        "https://fullnode.devnet.aptoslabs.com/v1"
      else if network == "testnet" then
        "https://fullnode.testnet.aptoslabs.com/v1"
      else
        "https://fullnode.mainnet.aptoslabs.com/v1") }

/-- Python attribute lookup on an `AptosPaymentService` instance: the four
data attributes assigned by `__init__` succeed, any other name raises
`AttributeError` (the logger attribute is elided — no embedded code reads
it as a value). -/
def AptosPaymentService.getattr (svc : AptosPaymentService) :
    String → Except PyErr PyVal
  | "network" => .ok (.str svc.network)
  | "service_price" => .ok (.num svc.service_price)
  | "seller_address" => .ok (optStrVal svc.seller_address)
  | "base_url" => .ok (optStrVal svc.base_url)
  | attr => .error (.attributeError attr)

/-- `AptosPaymentService.verify_payment` (lines 110-156).  The first
statement evaluates `self.client`, an attribute `__init__` never assigns,
so the access raises before the `try` block.  The simulation fallback
(line 115) is embedded literally; the on-chain branch (lines 117-156)
performs network I/O through the client and is abstracted by the
`onchain` oracle — both branches are unreachable. -/
def AptosPaymentService.verify_payment (svc : AptosPaymentService)
    (onchain : String → Bool) (tx_hash : String) : Except PyErr Bool := do
  let client ← svc.getattr "client"
  if pyTruthy client = false then
    .ok (decide (tx_hash ≠ "") && tx_hash.startsWith "0x" && decide (tx_hash.length > 10))
  else
    .ok (onchain tx_hash)

/-- `AptosPaymentService.get_payment_info` (lines 158-164). -/
def AptosPaymentService.get_payment_info (svc : AptosPaymentService) : PyDict :=
  [("price", .num svc.service_price),
   ("currency", .str "APT"),
   ("recipient", optStrVal svc.seller_address),
   ("network", .str svc.network)]

/-- The collaborators `FridgeAgent` consults: the abstract on-chain
verifier (unreachable, see `AptosPaymentService.verify_payment`), the
payment-request text generator (`AIResponseService.generate_payment_request`,
whose fallback depends on the process hash seed) and the success text
(`generate_success_message`, which uses `random.choice`). -/
structure FridgeCollabs where
  onchain : String → Bool
  aiPayReq : ℚ → String
  aiSuccess : String

/-- `FridgeAgent.handle_service_request` (fridge_agent_adk.py lines
257-295): without a truthy `payment_proof`, reply `payment_required`
carrying the AI text and the nested `payment_info` dict; otherwise verify
the proof and reply `service_delivered` or `payment_invalid`.  There is no
`try`/`except` in the handler, so an exception raised by
`verify_payment` propagates. -/
def FridgeAgent.handle_service_request (svc : AptosPaymentService)
    (co : FridgeCollabs) (message : Message) : Except PyErr Message :=
  let service := (pyGet message.content "service").getD .pynone
  let payment_proof := pyGet message.content "payment_proof"
  if pyTruthyOpt payment_proof = false then
    let payment_info := svc.get_payment_info
    let ai_message := co.aiPayReq svc.service_price
    .ok (Agent.send_message "fridge_001" message.sender_id "payment_required"
      [("message", .str ai_message), ("payment_info", .dict payment_info)])
  else do
    let is_valid ← svc.verify_payment co.onchain
      (pyAsString (payment_proof.getD .pynone))
    if is_valid then
      .ok (Agent.send_message "fridge_001" message.sender_id "service_delivered"
        [("status", .str co.aiSuccess), ("service", service)])
    else
      .ok (Agent.send_message "fridge_001" message.sender_id "payment_invalid"
        [("error", .str "Payment verification failed")])

/-- Tracked inventory of the enhanced fridge (`self.inventory`, a dict of
item name to count). -/
abbrev Inventory := List (String × ℚ)

/-- `self.inventory.get(item, 0)`. -/
def invGet : Inventory → String → ℚ
  | [], _ => 0
  | (k', v) :: rest, k => if k' == k then v else invGet rest k

/-- `self.inventory[item]`: direct indexing, raising `KeyError` when the
item is absent. -/
def invIndex : Inventory → String → Except PyErr ℚ
  | [], k => .error (.keyError k)
  | (k', v) :: rest, k => if k' == k then .ok v else invIndex rest k

/-- `self.inventory[item] = v`: replace the binding in place (append when
absent; the handler only reaches this after a successful index). -/
def invSet : Inventory → String → ℚ → Inventory
  | [], k, v => [(k, v)]
  | (k', v') :: rest, k, v =>
      if k' == k then (k, v) :: rest else (k', v') :: invSet rest k v

/-- `EnhancedFridgeAgent._calculate_price` (advanced_adk_example.py lines
250-253): `base_prices.get(item, 0.1) * quantity`. -/
def EnhancedFridgeAgent.calculate_price (item : String) (quantity : ℚ) : ℚ :=
  (if item == "coke" then (0.1 : ℚ)
   else if item == "pepsi" then 0.1
   else if item == "water" then 0.05
   else 0.1) * quantity

/-- `message.get("item", "coke")` as used by `_handle_service_request`
(the demo always places a string here). -/
def requestedItem (message : PyDict) : String :=
  pyAsString ((pyGet message "item").getD (.str "coke"))

/-- `message.get("quantity", 1)` as used by `_handle_service_request`. -/
def requestedQty (message : PyDict) : ℚ :=
  pyAsNum ((pyGet message "quantity").getD (.num 1))

/-- `EnhancedFridgeAgent._handle_service_request` (advanced_adk_example.py
lines 205-248): check the tracked inventory first, then the payment
proof, then verify and dispense.  `verify` stands for
`self.payment_service.verify_payment` (which, as constructed by
`_setup_services`, always raises — see `verify_payment_always_attribute_error`);
`aiPayReq`/`aiSuccess` are the text-generation collaborators;
`seller_address` is `os.getenv("SELLER_ADDRESS")`.  The result pairs the
response dict with the inventory after the call. -/
def EnhancedFridgeAgent.handle_service_request
    (verify : String → Except PyErr Bool)
    (aiPayReq : ℚ → String) (aiSuccess : String)
    (seller_address : Option String)
    (inventory : Inventory) (message : PyDict) :
    Except PyErr (PyDict × Inventory) :=
  let requested_item := requestedItem message
  let quantity := requestedQty message
  let payment_proof := pyGet message "payment_proof"
  if invGet inventory requested_item < quantity then
    .ok ([("status", .str "error"),
          ("message", .str ("Insufficient inventory for " ++ requested_item)),
          ("available", .num (invGet inventory requested_item))], inventory)
  else if pyTruthyOpt payment_proof = false then
    let price := EnhancedFridgeAgent.calculate_price requested_item quantity
    .ok ([("status", .str "payment_required"),
          ("message", .str (aiPayReq price)),
          ("price", .num price),
          ("recipient", optStrVal seller_address)], inventory)
  else do
    let is_valid ← verify (pyAsString (payment_proof.getD .pynone))
    if is_valid then do
      let current ← invIndex inventory requested_item
      let newInv := invSet inventory requested_item (current - quantity)
      .ok ([("status", .str "success"),
            ("message", .str aiSuccess),
            ("item", .str requested_item),
            ("quantity", .num quantity),
            ("remaining_inventory", .num (current - quantity))], newInv)
    else
      .ok ([("status", .str "error"),
            ("message", .str "Payment verification failed")], inventory)

/-- Behavior of a registered agent as the orchestrator sees it:
`process_message`, which may raise. -/
abbrev AgentBehavior := PyDict → Except PyErr (Option PyDict)

/-- Events the routing loop logs (`_route_message` lines 297-306). -/
inductive RouteLog where
  | responded (recipient : String) (response : PyDict)
  | unknownRecipient (recipient : Option PyVal)

/-- The log entry emitted after a registered agent was invoked: the
response is logged only when truthy (`if response:`). -/
def routeRespLog (r : String) : Option PyDict → List RouteLog
  | some d => if d.isEmpty then [] else [.responded r d]
  | none => []

/-- Outcome of one `_route_message` call: which agent (if any) was
invoked together with its response, the messages put onto the
orchestrator queue during routing, and the log entries. -/
structure RouteResult where
  invoked : Option (String × Option PyDict)
  enqueued : List PyDict
  log : List RouteLog

/-- `AgentOrchestrator._route_message` (advanced_adk_example.py lines
297-306): look up `message.get("recipient")` in the registry; if absent
warn and drop; otherwise invoke the agent's `process_message` and log a
truthy response.  The method never touches `self.message_queue`, so
`enqueued` is empty on every path; an exception from the handler
propagates (there is no `try` here — it is caught by the loop). -/
def AgentOrchestrator.route_message (agents : String → Option AgentBehavior)
    (message : PyDict) : Except PyErr RouteResult :=
  match pyGet message "recipient" with
  | some (.str r) =>
    match agents r with
    | some beh => do
        let response ← beh message
        .ok { invoked := some (r, response), enqueued := [],
              log := routeRespLog r response }
    | none =>
        .ok { invoked := none, enqueued := [],
              log := [.unknownRecipient (some (.str r))] }
  | other =>
      .ok { invoked := none, enqueued := [],
            log := [.unknownRecipient other] }

/-- Outcome of one iteration of the routing loop body. -/
inductive StepOutcome where
  | routed (r : RouteResult)
  | caught (e : PyErr)

/-- One iteration of the loop body of `_process_messages` (lines
285-295): route the dequeued message; `except Exception` turns an
escaping handler error into a logged outcome. -/
def AgentOrchestrator.process_step (agents : String → Option AgentBehavior)
    (message : PyDict) : StepOutcome :=
  match AgentOrchestrator.route_message agents message with
  | .ok r => .routed r
  | .error e => .caught e

/-- `AgentOrchestrator._process_messages` (lines 285-295) run over the
queue contents: each queued message is dequeued and processed in order,
each iteration's errors are caught inside the loop body, and the loop
then proceeds to the next message (the `TimeoutError` branch merely
re-polls an empty queue and is invisible to this per-message view). -/
def AgentOrchestrator.process_messages (agents : String → Option AgentBehavior) :
    List PyDict → List StepOutcome
  | [] => []
  | m :: rest =>
      AgentOrchestrator.process_step agents m ::
        AgentOrchestrator.process_messages agents rest

/-- Result of `AIDecisionService.should_purchase` (the returned dict). -/
structure DecisionInfo where
  decision : Bool
  reasoning : String
  confidence : ℚ

/-- `self.decision_threshold` assigned by `AIDecisionService.__init__`
(homehub_agent_adk.py line 25): the maximum price, `1.0` APT. -/
def AIDecisionService.decision_threshold : ℚ := 1.0

/-- `AIDecisionService.should_purchase` (homehub_agent_adk.py lines
27-41): accept exactly when the price is at most the threshold, with a
reasoning string interpolating the price, the service and the threshold
(`fmt` stands for Python's number-to-string formatting inside the
f-string). -/
def AIDecisionService.should_purchase (fmt : ℚ → String)
    (service : String) (price : ℚ) : DecisionInfo :=
  let decision : Bool := decide (price ≤ AIDecisionService.decision_threshold)
  { decision := decision
  , reasoning := "💭 The price of " ++ fmt price ++ " APT for " ++ service
      ++ " is " ++ (if decision then "acceptable" else "too expensive")
      ++ ". My budget threshold is "
      ++ fmt AIDecisionService.decision_threshold ++ " APT."
  , confidence := if decision then 0.85 else 0.95 }

/-- Result dict of `AptosPaymentClient.make_payment`. -/
structure MakePaymentResult where
  success : Bool
  transaction_hash : Option String
  error : Option String

/-- `AptosPaymentClient.make_payment` (homehub_agent_adk.py lines 70-89):
succeed exactly when both the private key (`BUYER_PRIVATE_KEY`) and the
recipient are truthy; `mkHash` stands for the simulated transaction-hash
construction, which interpolates the current timestamp. -/
def AptosPaymentClient.make_payment (private_key : Option String)
    (mkHash : ℚ → String → String) (amount : ℚ) (recipient : Option String) :
    MakePaymentResult :=
  if pyTruthyStr private_key && pyTruthyStr recipient then
    { success := true
    , transaction_hash := some (mkHash amount (recipient.getD ""))
    , error := none }
  else
    { success := false
    , transaction_hash := none
    , error := some "Missing private key or recipient address" }

/-- One entry of `self.active_transactions` (a dict that may hold a
`service` and/or a `payment_hash` key). -/
structure TxRecord where
  service : Option String
  payment_hash : Option String

/-- `self.active_transactions`: counterparty id → transaction record. -/
abbrev Tracker := List (String × TxRecord)

/-- `self.active_transactions.get(k)`. -/
def trackerGet : Tracker → String → Option TxRecord
  | [], _ => none
  | (k', rec) :: rest, k => if k' == k then some rec else trackerGet rest k

/-- `self.active_transactions[k] = rec` (replace or insert). -/
def trackerSet : Tracker → String → TxRecord → Tracker
  | [], k, rec => [(k, rec)]
  | (k', rec') :: rest, k, rec =>
      if k' == k then (k, rec) :: rest else (k', rec') :: trackerSet rest k rec

/-- `if k in self.active_transactions: del self.active_transactions[k]`. -/
def trackerErase : Tracker → String → Tracker
  | [], _ => []
  | (k', rec) :: rest, k =>
      if k' == k then trackerErase rest k else (k', rec) :: trackerErase rest k

/-- `self.active_transactions.get(sender, {}).get("service", default)`. -/
def trackedService (t : Tracker) (sender : String) (default : String) : String :=
  (((trackerGet t sender).bind (fun rec => rec.service)).getD default)

/-- Outcome of a HomeHub handler call: the optional response message, the
transaction tracker afterwards, and every `make_payment` call issued to
the payment backend (amount and recipient). -/
structure HubResult where
  response : Option Message
  tracker : Tracker
  payment_calls : List (ℚ × Option String)

/-- `payment_info.get("recipient")` as the payment client receives it (a
string when present, `None` otherwise; the protocol only ever stores a
string there). -/
def dictRecipient (payment_info : PyDict) : Option String :=
  match pyGet payment_info "recipient" with
  | some (.str s) => some s
  | _ => none

/-- `HomeHubAgent.handle_payment_required` (homehub_agent_adk.py lines
129-175): extract `price`/`recipient` from the nested `payment_info`,
consult `should_purchase`; on accept call `make_payment` — on success
record the hash and reply with a `service_request` carrying the proof, on
failure log and return `None` — and on reject reply `purchase_declined`
with the reasoning, leaving the tracker untouched.  `fmt`, `private_key`
and `mkHash` are the collaborator parameters described above. -/
def HomeHubAgent.handle_payment_required (fmt : ℚ → String)
    (private_key : Option String) (mkHash : ℚ → String → String)
    (tracker : Tracker) (message : Message) : HubResult :=
  let payment_info := pyAsDict ((pyGet message.content "payment_info").getD (.dict []))
  let price := pyAsNum ((pyGet payment_info "price").getD (.num 0))
  let recipient := dictRecipient payment_info
  let service_name := trackedService tracker message.sender_id "unknown service"
  let decision_info := AIDecisionService.should_purchase fmt service_name price
  if decision_info.decision then
    let payment_result := AptosPaymentClient.make_payment private_key mkHash price recipient
    if payment_result.success then
      let tx := payment_result.transaction_hash.getD ""
      let base := (trackerGet tracker message.sender_id).getD
        { service := none, payment_hash := none }
      { response := some (Agent.send_message "homehub_001" message.sender_id
          "service_request"
          [("service", .str service_name), ("payment_proof", .str tx)])
      , tracker := trackerSet tracker message.sender_id
          { base with payment_hash := some tx }
      , payment_calls := [(price, recipient)] }
    else
      { response := none, tracker := tracker, payment_calls := [(price, recipient)] }
  else
    { response := some (Agent.send_message "homehub_001" message.sender_id
        "purchase_declined"
        [("reason", .str decision_info.reasoning),
         ("max_budget", .num AIDecisionService.decision_threshold)])
    , tracker := tracker, payment_calls := [] }

/-- `HomeHubAgent.handle_service_delivered` (homehub_agent_adk.py lines
177-191): log the delivery and the generated success text (pure logging),
delete the sender's tracker entry when present, and return `None`. -/
def HomeHubAgent.handle_service_delivered (tracker : Tracker)
    (message : Message) : HubResult :=
  { response := none
  , tracker := trackerErase tracker message.sender_id
  , payment_calls := [] }

/-- `HomeHubAgent.handle_payment_invalid` (homehub_agent_adk.py lines
193-199): log the error and return `None`; the tracker is untouched. -/
def HomeHubAgent.handle_payment_invalid (tracker : Tracker)
    (_message : Message) : HubResult :=
  { response := none, tracker := tracker, payment_calls := [] }

/-! ### Concrete scenario data used by witnesses and counterexamples -/

/-- A proof token the simulation verifier of the source would accept
(starts with `0x`, longer than 10 characters). -/
def sampleProof : String := "0x1234567890ab"

/-- The enhanced fridge's initial inventory (advanced_adk_example.py line
174). -/
def sampleInventory : Inventory := [("coke", 50), ("pepsi", 30), ("water", 20)]

/-- A `service_request` dict carrying a payment proof, in the wire shape
the demo uses. -/
def replayRequest : PyDict :=
  [("type", .str "service_request"), ("recipient", .str "SmartFridge_v2"),
   ("sender", .str "demo_client"), ("item", .str "coke"),
   ("quantity", .num 1), ("payment_proof", .str sampleProof)]

/-- The success response of `_handle_service_request` for one coke with
`remaining_inventory` `r` (success text instantiated to `"ok"`). -/
def successDict (r : ℚ) : PyDict :=
  [("status", .str "success"), ("message", .str "ok"), ("item", .str "coke"),
   ("quantity", .num 1), ("remaining_inventory", .num r)]

/-- A payment service as `FridgeAgent.__init__` builds it (devnet, seller
address from the environment). -/
def svcDevnet : AptosPaymentService := AptosPaymentService.init "devnet" (some "0xseller")

/-- Fixed text-generation collaborators for concrete runs. -/
def coFixed : FridgeCollabs :=
  { onchain := fun _ => false, aiPayReq := fun _ => "please pay", aiSuccess := "enjoy" }

/-- A `service_request` agent message with no payment proof. -/
def noProofRequest : Message :=
  { id := "msg", sender_id := "homehub_001", recipient_id := "fridge_001",
    message_type := "service_request",
    content := [("service", .str "soda"), ("payment_proof", .pynone)] }

/-- A `service_request` agent message carrying `sampleProof`. -/
def proofRequest : Message :=
  { id := "msg", sender_id := "homehub_001", recipient_id := "fridge_001",
    message_type := "service_request",
    content := [("service", .str "soda"), ("payment_proof", .str sampleProof)] }

/-- The `payment_required` content `FridgeAgent` produces for `svcDevnet`
and `coFixed`: the AI text plus the nested `payment_info` dict. -/
def nestedPayContent : PyDict :=
  [("message", .str "please pay"),
   ("payment_info", .dict [("price", .num 0.1), ("currency", .str "APT"),
     ("recipient", .str "0xseller"), ("network", .str "devnet")])]

/-- A registry holding one agent that answers every message with a fixed
response dict. -/
def c3Agents : String → Option AgentBehavior :=
  fun r => if r == "SmartFridge_v2" then some (fun _ => .ok (some [("status", .str "ok")])) else none

/-- The fixed response returned by the agent registered in `c3Agents`. -/
def respOk : PyDict := [("status", .str "ok")]

/-- A queued message addressed to the registered agent. -/
def c3Message : PyDict :=
  [("type", .str "service_request"), ("recipient", .str "SmartFridge_v2"),
   ("sender", .str "demo_client")]

/-- A fixed stand-in for the timestamp-interpolating simulated
transaction hash of `make_payment`. -/
def cMkHash : ℚ → String → String := fun _ _ => "0xdeadbeef1234"

/-- A fixed stand-in for Python's number formatting. -/
def cFmt : ℚ → String := fun _ => "2"

/-- A `payment_required` message quoting a price of `0.1` APT. -/
def payReqCheap : Message :=
  { id := "msg", sender_id := "fridge_001", recipient_id := "homehub_001",
    message_type := "payment_required",
    content := [("message", .str "pay please"),
      ("payment_info", .dict [("price", .num 0.1), ("currency", .str "APT"),
        ("recipient", .str "0xseller"), ("network", .str "devnet")])] }

/-- A `payment_required` message quoting a price of `2` APT (above the
`1.0` threshold). -/
def payReqExpensive : Message :=
  { id := "msg", sender_id := "fridge_001", recipient_id := "homehub_001",
    message_type := "payment_required",
    content := [("message", .str "pay please"),
      ("payment_info", .dict [("price", .num 2), ("currency", .str "APT"),
        ("recipient", .str "0xseller"), ("network", .str "devnet")])] }

/-- A tracker holding one in-flight transaction with the fridge. -/
def sodaTracker : Tracker := [("fridge_001", { service := some "soda", payment_hash := none })]

/-- A `service_delivered` message from the fridge. -/
def deliveredMsg : Message :=
  { id := "msg", sender_id := "fridge_001", recipient_id := "homehub_001",
    message_type := "service_delivered",
    content := [("status", .str "enjoy"), ("service", .str "soda")] }

/-! ### Helper lemmas -/

/-- `verify_payment` raises `AttributeError` on every input, because the
`client` attribute read by its first statement is never assigned by
`__init__`. -/
theorem verify_payment_always_attribute_error (svc : AptosPaymentService)
    (onchain : String → Bool) (tx_hash : String) :
    svc.verify_payment onchain tx_hash = .error (.attributeError "client") := rfl

/-- Deleting a tracker key makes its lookup return nothing. -/
theorem trackerGet_trackerErase (t : Tracker) (k : String) :
    trackerGet (trackerErase t k) k = none := by
  induction t with
  | nil => rfl
  | cons kv rest ih =>
    obtain ⟨k', rec⟩ := kv
    by_cases h : k' == k
    · simpa [trackerErase, h] using ih
    · simp [trackerErase, trackerGet, h, ih]

/-- The routing loop processes one queued message per iteration, in
order, whatever routing does. -/
theorem process_messages_length (agents : String → Option AgentBehavior)
    (msgs : List PyDict) :
    (AgentOrchestrator.process_messages agents msgs).length = msgs.length := by
  induction msgs with
  | nil => rfl
  | cons m rest ih => simp [AgentOrchestrator.process_messages, ih]

/-! ### Claim theorems -/

/-- Claim C2: every call to `AptosPaymentService.verify_payment` raises
`AttributeError` before reaching its `try` block, because `__init__`
assigns `network`, `service_price`, `seller_address`, `base_url` and the
logger but never the `client` attribute that `verify_payment` reads
first; consequently `FridgeAgent.handle_service_request` on any
`service_request` whose `payment_proof` is a non-empty string raises
instead of returning a `service_delivered` or `payment_invalid`
message. -/
theorem c2_verify_payment_raises_attribute_error :
    (∀ (svc : AptosPaymentService) (onchain : String → Bool) (tx_hash : String),
        svc.verify_payment onchain tx_hash = .error (.attributeError "client"))
  ∧ (∀ (svc : AptosPaymentService) (co : FridgeCollabs) (message : Message) (p : String),
        pyGet message.content "payment_proof" = some (.str p) → p ≠ "" →
        FridgeAgent.handle_service_request svc co message
          = .error (.attributeError "client")) := by
  constructor
  · intro svc onchain tx_hash
    rfl
  · intro svc co message p hget hp
    have htruthy : pyTruthyOpt (pyGet message.content "payment_proof") = true := by
      rw [hget]; simp [pyTruthyOpt, pyTruthy, hp]
    simp only [FridgeAgent.handle_service_request, htruthy,
      verify_payment_always_attribute_error]
    rfl

/-- Witness for C2: the concrete `service_request` carrying `sampleProof`
raises `AttributeError` out of `FridgeAgent.handle_service_request`. -/
theorem c2_witness :
    FridgeAgent.handle_service_request svcDevnet coFixed proofRequest
      = .error (.attributeError "client") :=
  c2_verify_payment_raises_attribute_error.2 svcDevnet coFixed proofRequest
    sampleProof (by with_unfolding_all rfl) (by simp [sampleProof])

/-- Claim C1: the claim requires `verify_payment` to yield the same
boolean on repeated calls and the inventory decrement to happen at most
once per proof.  The code does neither: `verify_payment` never yields a
boolean at all (it raises `AttributeError`, first conjunct), and the
provider tracks no consumed proofs, so with any verification backend that
accepts `sampleProof` the enhanced provider decrements its coke inventory
on *every* repeated `service_request` carrying the same proof — from 50
to 49, then from 49 to 48, instead of at most once in total (remaining
conjuncts). -/
theorem c1_replay_decrements_inventory_each_time :
    ((AptosPaymentService.init "devnet" (some "0xseller")).verify_payment
        (fun _ => false) sampleProof = .error (.attributeError "client"))
  ∧ (EnhancedFridgeAgent.handle_service_request (fun _ => .ok true)
        (fun _ => "pay") "ok" (some "0xseller") sampleInventory replayRequest
      = .ok (successDict 49, [("coke", 49), ("pepsi", 30), ("water", 20)]))
  ∧ (EnhancedFridgeAgent.handle_service_request (fun _ => .ok true)
        (fun _ => "pay") "ok" (some "0xseller")
        [("coke", 49), ("pepsi", 30), ("water", 20)] replayRequest
      = .ok (successDict 48, [("coke", 48), ("pepsi", 30), ("water", 20)]))
  ∧ invGet [("coke", 48), ("pepsi", 30), ("water", 20)] "coke" ≠ 50 - 1 := by
  refine ⟨rfl, by with_unfolding_all rfl, by with_unfolding_all rfl, ?_⟩
  norm_num [invGet]

/-- Claim C4: on every `service_request` the enhanced provider checks its
tracked inventory before looking at payment status: whenever the tracked
count of the requested item is below the requested quantity the response
is the distinct insufficiency error — with status `"error"`, which is
neither `"payment_required"` nor the `"success"` delivery status — and
the inventory and the verifier are untouched, regardless of whether a
payment proof is present in the request (the message, including its
proof field, is universally quantified); when inventory suffices and no
proof is present the response is `payment_required`. -/
theorem c4_inventory_checked_before_payment :
    (∀ (verify : String → Except PyErr Bool) (aiPayReq : ℚ → String)
       (aiSuccess : String) (seller_address : Option String)
       (inventory : Inventory) (message : PyDict),
        invGet inventory (requestedItem message) < requestedQty message →
        EnhancedFridgeAgent.handle_service_request verify aiPayReq aiSuccess
            seller_address inventory message
          = .ok ([("status", .str "error"),
                  ("message", .str ("Insufficient inventory for " ++ requestedItem message)),
                  ("available", .num (invGet inventory (requestedItem message)))],
                 inventory))
  ∧ (∀ (verify : String → Except PyErr Bool) (aiPayReq : ℚ → String)
       (aiSuccess : String) (seller_address : Option String)
       (inventory : Inventory) (message : PyDict),
        ¬ invGet inventory (requestedItem message) < requestedQty message →
        pyTruthyOpt (pyGet message "payment_proof") = false →
        EnhancedFridgeAgent.handle_service_request verify aiPayReq aiSuccess
            seller_address inventory message
          = .ok ([("status", .str "payment_required"),
                  ("message", .str (aiPayReq (EnhancedFridgeAgent.calculate_price
                      (requestedItem message) (requestedQty message)))),
                  ("price", .num (EnhancedFridgeAgent.calculate_price
                      (requestedItem message) (requestedQty message))),
                  ("recipient", optStrVal seller_address)],
                 inventory))
  ∧ ("error" : String) ≠ "payment_required" ∧ ("error" : String) ≠ "success" := by
  refine ⟨?_, ?_, by decide, by decide⟩
  · intro verify aiPayReq aiSuccess seller_address inventory message h
    simp only [EnhancedFridgeAgent.handle_service_request, if_pos h]
  · intro verify aiPayReq aiSuccess seller_address inventory message h hproof
    simp only [EnhancedFridgeAgent.handle_service_request, if_neg h, hproof, if_true]

/-- Witness for C4: with zero coke in stock, a one-coke request carrying
a valid-looking proof gets the insufficiency error (not
`payment_required`, no dispensing), and with the stock of the demo and no
proof it gets `payment_required`. -/
theorem c4_witness :
    (EnhancedFridgeAgent.handle_service_request (fun _ => .ok true)
        (fun _ => "pay") "ok" (some "0xseller") [("coke", 0)] replayRequest
      = .ok ([("status", .str "error"),
              ("message", .str ("Insufficient inventory for " ++ requestedItem replayRequest)),
              ("available", .num (invGet [("coke", 0)] (requestedItem replayRequest)))],
             [("coke", 0)]))
  ∧ (EnhancedFridgeAgent.handle_service_request (fun _ => .ok true)
        (fun _ => "pay") "ok" (some "0xseller") sampleInventory
        [("type", .str "service_request"), ("item", .str "coke"), ("quantity", .num 1)]
      = .ok ([("status", .str "payment_required"),
              ("message", .str "pay"),
              ("price", .num (EnhancedFridgeAgent.calculate_price
                  (requestedItem [("type", .str "service_request"),
                    ("item", .str "coke"), ("quantity", .num 1)])
                  (requestedQty [("type", .str "service_request"),
                    ("item", .str "coke"), ("quantity", .num 1)]))),
              ("recipient", optStrVal (some "0xseller"))],
             sampleInventory)) := by
  constructor
  · exact c4_inventory_checked_before_payment.1 (fun _ => .ok true) (fun _ => "pay")
      "ok" (some "0xseller") [("coke", 0)] replayRequest (by with_unfolding_all rfl)
  · exact c4_inventory_checked_before_payment.2.1 (fun _ => .ok true) (fun _ => "pay")
      "ok" (some "0xseller") sampleInventory
      [("type", .str "service_request"), ("item", .str "coke"), ("quantity", .num 1)]
      (by simp [invGet, requestedItem, requestedQty, pyGet, pyAsString, pyAsNum,
        sampleInventory])
      (by with_unfolding_all rfl)

/-- Claim C3 counterexample: the registered agent `"SmartFridge_v2"`
returns the response `respOk` for the dequeued message `c3Message`, yet
the routing step enqueues nothing — its `enqueued` list is empty, so the
returned response is not put onto the orchestrator's message queue,
contradicting the claim that the loop enqueues handler responses for
further routing. -/
theorem c3_counterexample_response_not_enqueued :
    AgentOrchestrator.route_message c3Agents c3Message
      = .ok { invoked := some ("SmartFridge_v2", some respOk), enqueued := [],
              log := [.responded "SmartFridge_v2" respOk] }
  ∧ respOk ∉ ([] : List PyDict) := by
  refine ⟨by with_unfolding_all rfl, by simp⟩

/-- Claim C3 as amended: for every dequeued message whose recipient is
registered, the routing loop invokes the recipient's handler; when the
handler returns a response, the loop only logs it (when truthy) and does
not enqueue it — the `enqueued` messages are none — so multi-hop
exchanges require the caller to re-dispatch manually. -/
theorem c3_amended_response_logged_not_enqueued :
    ∀ (agents : String → Option AgentBehavior) (message : PyDict) (r : String)
      (beh : AgentBehavior) (resp : Option PyDict),
      pyGet message "recipient" = some (.str r) →
      agents r = some beh →
      beh message = .ok resp →
      AgentOrchestrator.route_message agents message
        = .ok { invoked := some (r, resp), enqueued := [],
                log := routeRespLog r resp } := by
  intro agents message r beh resp h1 h2 h3
  simp only [AgentOrchestrator.route_message, h1, h2, h3]
  rfl

/-- Witness for the amended C3 at the concrete registry and message. -/
theorem c3_amended_witness :
    AgentOrchestrator.route_message c3Agents c3Message
      = .ok { invoked := some ("SmartFridge_v2", some respOk), enqueued := [],
              log := routeRespLog "SmartFridge_v2" (some respOk) } :=
  c3_amended_response_logged_not_enqueued c3Agents c3Message "SmartFridge_v2"
    (fun _ => .ok (some [("status", .str "ok")])) (some respOk)
    (by with_unfolding_all rfl) (by with_unfolding_all rfl) (by with_unfolding_all rfl)

/-- Claim C9: the routing loop is exception-isolated.  (1) Each queued
message yields exactly one loop iteration, so every queued message is
processed regardless of what any iteration does; (2) each iteration
prepends its own outcome and the loop then proceeds on the remaining
queue unchanged; (3) a message whose recipient is not registered is
reported and dropped without raising (the routing call returns normally
with a warning log); (4) an exception escaping a handler during dispatch
is caught inside the loop body and becomes a logged outcome; (5) an agent
receiving an unhandled message kind returns no response without
raising. -/
theorem c9_routing_loop_is_exception_isolated :
    (∀ (agents : String → Option AgentBehavior) (msgs : List PyDict),
        (AgentOrchestrator.process_messages agents msgs).length = msgs.length)
  ∧ (∀ (agents : String → Option AgentBehavior) (m : PyDict) (rest : List PyDict),
        AgentOrchestrator.process_messages agents (m :: rest)
          = AgentOrchestrator.process_step agents m ::
              AgentOrchestrator.process_messages agents rest)
  ∧ (∀ (agents : String → Option AgentBehavior) (message : PyDict) (r : String),
        pyGet message "recipient" = some (.str r) → agents r = none →
        AgentOrchestrator.route_message agents message
          = .ok { invoked := none, enqueued := [],
                  log := [.unknownRecipient (some (.str r))] })
  ∧ (∀ (agents : String → Option AgentBehavior) (message : PyDict) (e : PyErr),
        AgentOrchestrator.route_message agents message = .error e →
        AgentOrchestrator.process_step agents message = .caught e)
  ∧ (∀ (handlers : String → Option (Message → Except PyErr (Option Message)))
       (message : Message),
        handlers message.message_type = none →
        Agent.handle_message handlers message = .ok none) := by
  refine ⟨process_messages_length, ?_, ?_, ?_, ?_⟩
  · intro agents m rest
    rfl
  · intro agents message r h1 h2
    simp only [AgentOrchestrator.route_message, h1, h2]
  · intro agents message e h
    simp only [AgentOrchestrator.process_step, h]
  · intro handlers message h
    simp only [Agent.handle_message, h]

/-- Witness for C9: an unknown recipient is dropped with a warning; a
handler that raises is caught as a loop outcome; an unregistered message
kind yields no response. -/
theorem c9_witness :
    (AgentOrchestrator.route_message (fun _ => none) c3Message
      = .ok { invoked := none, enqueued := [],
              log := [.unknownRecipient (some (.str "SmartFridge_v2"))] })
  ∧ (AgentOrchestrator.process_step
        (fun _ => some (fun _ => .error (.attributeError "client"))) c3Message
      = .caught (.attributeError "client"))
  ∧ (Agent.handle_message (fun _ => none) deliveredMsg = .ok none) :=
  ⟨c9_routing_loop_is_exception_isolated.2.2.1 (fun _ => none) c3Message
      "SmartFridge_v2" (by with_unfolding_all rfl) rfl,
   c9_routing_loop_is_exception_isolated.2.2.2.1
      (fun _ => some (fun _ => .error (.attributeError "client"))) c3Message
      (.attributeError "client") (by with_unfolding_all rfl),
   c9_routing_loop_is_exception_isolated.2.2.2.2 (fun _ => none) deliveredMsg rfl⟩

/-- Claim C5: declined transactions never reach the payment backend.
Whenever the quoted price exceeds the decision threshold — i.e. the
decision function returns a `false` decision — `handle_payment_required`
issues no `make_payment` call (`payment_calls` is empty) and responds
with a `purchase_declined` message whose `reason` is exactly the
decision's reasoning. -/
theorem c5_decline_never_calls_payment_backend :
    ∀ (fmt : ℚ → String) (private_key : Option String)
      (mkHash : ℚ → String → String) (tracker : Tracker) (message : Message)
      (pinfo : PyDict) (price : ℚ),
      pyGet message.content "payment_info" = some (.dict pinfo) →
      pyGet pinfo "price" = some (.num price) →
      AIDecisionService.decision_threshold < price →
      HomeHubAgent.handle_payment_required fmt private_key mkHash tracker message
        = { response := some (Agent.send_message "homehub_001" message.sender_id
              "purchase_declined"
              [("reason", .str (AIDecisionService.should_purchase fmt
                  (trackedService tracker message.sender_id "unknown service")
                  price).reasoning),
               ("max_budget", .num AIDecisionService.decision_threshold)])
          , tracker := tracker
          , payment_calls := [] } := by
  intro fmt private_key mkHash tracker message pinfo price h1 h2 h3
  have hdec : (AIDecisionService.should_purchase fmt
      (trackedService tracker message.sender_id "unknown service") price).decision
        = false := by
    simp [AIDecisionService.should_purchase, not_le.mpr h3]
  simp only [HomeHubAgent.handle_payment_required, h1, h2, Option.getD_some,
    pyAsDict, pyAsNum, hdec, Bool.false_eq_true, if_false]

/-- Witness for C5: a `payment_required` quoting 2 APT (above the 1.0 APT
threshold) is declined with no payment call. -/
theorem c5_witness :
    HomeHubAgent.handle_payment_required cFmt (some "0xkey") cMkHash
        sodaTracker payReqExpensive
      = { response := some (Agent.send_message "homehub_001"
            payReqExpensive.sender_id "purchase_declined"
            [("reason", .str (AIDecisionService.should_purchase cFmt
                (trackedService sodaTracker payReqExpensive.sender_id
                  "unknown service") 2).reasoning),
             ("max_budget", .num AIDecisionService.decision_threshold)])
        , tracker := sodaTracker
        , payment_calls := [] } :=
  c5_decline_never_calls_payment_backend cFmt (some "0xkey") cMkHash sodaTracker
    payReqExpensive
    [("price", .num 2), ("currency", .str "APT"), ("recipient", .str "0xseller"),
      ("network", .str "devnet")] 2
    (by with_unfolding_all rfl) (by with_unfolding_all rfl)
    (by norm_num [AIDecisionService.decision_threshold])

/-- Claim C6 counterexample: with no buyer private key configured, the
payment backend call issued for the accepted 0.1 APT quote fails
(`success = false`), and `handle_payment_required` answers with *no*
message at all (`response = none`) instead of a typed business-error
response carrying the error text — the failure is swallowed, refuting the
claim that a collaborator failure is always surfaced as a response
message. -/
theorem c6_counterexample_payment_failure_swallowed :
    HomeHubAgent.handle_payment_required cFmt none cMkHash [] payReqCheap
      = { response := none, tracker := [],
          payment_calls := [(0.1, some "0xseller")] }
  ∧ (AptosPaymentClient.make_payment none cMkHash 0.1 (some "0xseller")).success
      = false := by
  exact ⟨by with_unfolding_all rfl, rfl⟩

/-- Claim C6 as amended: a failing `make_payment` call is logged and the
handler returns no response message (`None`) rather than a typed
business-error response, leaving the tracker untouched; and handlers
install no `try`/`except` of their own, so an exception raised by a
collaborator propagates out of the handler —
`FridgeAgent.handle_service_request` propagates `verify_payment`'s
`AttributeError` — to be caught only by the orchestrator's routing
loop. -/
theorem c6_amended_failure_swallowed_or_propagated :
    (∀ (fmt : ℚ → String) (mkHash : ℚ → String → String) (tracker : Tracker)
       (message : Message) (pinfo : PyDict) (price : ℚ),
        pyGet message.content "payment_info" = some (.dict pinfo) →
        pyGet pinfo "price" = some (.num price) →
        price ≤ AIDecisionService.decision_threshold →
        HomeHubAgent.handle_payment_required fmt none mkHash tracker message
          = { response := none, tracker := tracker,
              payment_calls := [(price, dictRecipient pinfo)] })
  ∧ (∀ (svc : AptosPaymentService) (co : FridgeCollabs) (message : Message)
       (p : String),
        pyGet message.content "payment_proof" = some (.str p) → p ≠ "" →
        FridgeAgent.handle_service_request svc co message
          = .error (.attributeError "client")) := by
  constructor
  · intro fmt mkHash tracker message pinfo price h1 h2 h3
    have hdec : (AIDecisionService.should_purchase fmt
        (trackedService tracker message.sender_id "unknown service") price).decision
          = true := by
      simp [AIDecisionService.should_purchase, h3]
    have hpay : AptosPaymentClient.make_payment none mkHash price
        (dictRecipient pinfo)
          = { success := false, transaction_hash := none,
              error := some "Missing private key or recipient address" } := by
      simp [AptosPaymentClient.make_payment, pyTruthyStr]
    simp only [HomeHubAgent.handle_payment_required, h1, h2, Option.getD_some,
      pyAsDict, pyAsNum, hdec, if_true, hpay, Bool.false_eq_true, if_false]
  · intro svc co message p hget hp
    have htruthy : pyTruthyOpt (pyGet message.content "payment_proof") = true := by
      rw [hget]; simp [pyTruthyOpt, pyTruthy, hp]
    simp only [FridgeAgent.handle_service_request, htruthy,
      verify_payment_always_attribute_error]
    rfl

/-- Witness for the amended C6: the concrete failing payment yields no
response message, and the concrete proof-carrying request raises out of
the fridge handler. -/
theorem c6_amended_witness :
    (HomeHubAgent.handle_payment_required cFmt none cMkHash [] payReqCheap
      = { response := none, tracker := [],
          payment_calls := [(0.1, dictRecipient [("price", .num 0.1),
            ("currency", .str "APT"), ("recipient", .str "0xseller"),
            ("network", .str "devnet")])] })
  ∧ (FridgeAgent.handle_service_request svcDevnet coFixed proofRequest
      = .error (.attributeError "client")) :=
  ⟨c6_amended_failure_swallowed_or_propagated.1 cFmt cMkHash [] payReqCheap
      [("price", .num 0.1), ("currency", .str "APT"), ("recipient", .str "0xseller"),
        ("network", .str "devnet")] 0.1
      (by with_unfolding_all rfl) (by with_unfolding_all rfl)
      (by norm_num [AIDecisionService.decision_threshold]),
   c6_amended_failure_swallowed_or_propagated.2 svcDevnet coFixed proofRequest
      sampleProof (by with_unfolding_all rfl) (by simp [sampleProof])⟩

/-- Claim C7 counterexample: the `payment_required` message
`FridgeAgent.handle_service_request` produces for a proof-less request
carries, at the top level of its payload, only `message` and
`payment_info`; its top level has no `price` and no `recipient` field
(they sit nested inside `payment_info`), refuting the claim that every
`payment_required` payload carries `price` and `recipient` at top
level. -/
theorem c7_counterexample_price_not_top_level :
    FridgeAgent.handle_service_request svcDevnet coFixed noProofRequest
      = .ok { id := "msg", sender_id := "fridge_001",
              recipient_id := "homehub_001",
              message_type := "payment_required", content := nestedPayContent }
  ∧ pyGet nestedPayContent "price" = none
  ∧ pyGet nestedPayContent "recipient" = none
  ∧ pyGet nestedPayContent "message" = some (.str "please pay") := by
  exact ⟨by with_unfolding_all rfl, by with_unfolding_all rfl,
    by with_unfolding_all rfl, by with_unfolding_all rfl⟩

/-- Claim C7 as amended: every `payment_required` agent message the
provider (`FridgeAgent`) produces carries, at the top level of its
payload, `message` (a human-readable string) and `payment_info` (a dict);
`price` (a number) and `recipient` sit inside that nested `payment_info`
dict, not at the top level. -/
theorem c7_amended_price_nested_in_payment_info :
    ∀ (svc : AptosPaymentService) (co : FridgeCollabs) (message : Message),
      pyTruthyOpt (pyGet message.content "payment_proof") = false →
      (FridgeAgent.handle_service_request svc co message
        = .ok (Agent.send_message "fridge_001" message.sender_id
            "payment_required"
            [("message", .str (co.aiPayReq svc.service_price)),
             ("payment_info", .dict svc.get_payment_info)]))
      ∧ pyGet svc.get_payment_info "price" = some (.num svc.service_price)
      ∧ pyGet svc.get_payment_info "recipient" = some (optStrVal svc.seller_address)
      ∧ pyGet [("message", PyVal.str (co.aiPayReq svc.service_price)),
               ("payment_info", PyVal.dict svc.get_payment_info)] "price" = none := by
  intro svc co message h
  refine ⟨?_, rfl, by with_unfolding_all rfl, by with_unfolding_all rfl⟩
  simp only [FridgeAgent.handle_service_request, h, if_true]

/-- Witness for the amended C7 at the concrete proof-less request. -/
theorem c7_amended_witness :
    (FridgeAgent.handle_service_request svcDevnet coFixed noProofRequest
      = .ok (Agent.send_message "fridge_001" noProofRequest.sender_id
          "payment_required"
          [("message", .str (coFixed.aiPayReq svcDevnet.service_price)),
           ("payment_info", .dict svcDevnet.get_payment_info)]))
      ∧ pyGet svcDevnet.get_payment_info "price"
          = some (.num svcDevnet.service_price)
      ∧ pyGet svcDevnet.get_payment_info "recipient"
          = some (optStrVal svcDevnet.seller_address)
      ∧ pyGet [("message", PyVal.str (coFixed.aiPayReq svcDevnet.service_price)),
               ("payment_info", PyVal.dict svcDevnet.get_payment_info)] "price"
          = none :=
  c7_amended_price_nested_in_payment_info svcDevnet coFixed noProofRequest
    (by with_unfolding_all rfl)

/-- Claim C8 counterexample: with an in-flight transaction recorded for
`"fridge_001"`, declining the 2 APT quote sends `purchase_declined` but
leaves the tracker exactly as it was — the entry for the counterparty is
still present after the decline, refuting the claim that the entry is
removed when the requester declines a purchase. -/
theorem c8_counterexample_decline_keeps_entry :
    HomeHubAgent.handle_payment_required cFmt (some "0xkey") cMkHash
        sodaTracker payReqExpensive
      = { response := some (Agent.send_message "homehub_001" "fridge_001"
            "purchase_declined"
            [("reason", .str (AIDecisionService.should_purchase cFmt "soda" 2).reasoning),
             ("max_budget", .num AIDecisionService.decision_threshold)])
        , tracker := sodaTracker
        , payment_calls := [] }
  ∧ trackerGet sodaTracker "fridge_001"
      = some { service := some "soda", payment_hash := none } := by
  exact ⟨by with_unfolding_all rfl, by with_unfolding_all rfl⟩

/-- Claim C8 as amended: the requester's transaction-tracker entry for a
counterparty is removed after handling a `service_delivered` message from
that counterparty (and the handler returns no further message), but after
the requester declines a purchase (decision `false`, i.e. price above the
threshold) the entry is *not* removed — the tracker is returned
unchanged. -/
theorem c8_amended_entry_removed_only_on_delivery :
    (∀ (tracker : Tracker) (message : Message),
        trackerGet (HomeHubAgent.handle_service_delivered tracker message).tracker
            message.sender_id = none
      ∧ (HomeHubAgent.handle_service_delivered tracker message).response = none)
  ∧ (∀ (fmt : ℚ → String) (private_key : Option String)
       (mkHash : ℚ → String → String) (tracker : Tracker) (message : Message)
       (pinfo : PyDict) (price : ℚ),
        pyGet message.content "payment_info" = some (.dict pinfo) →
        pyGet pinfo "price" = some (.num price) →
        AIDecisionService.decision_threshold < price →
        (HomeHubAgent.handle_payment_required fmt private_key mkHash tracker
            message).tracker = tracker) := by
  constructor
  · intro tracker message
    exact ⟨trackerGet_trackerErase tracker message.sender_id, rfl⟩
  · intro fmt private_key mkHash tracker message pinfo price h1 h2 h3
    have hdec : (AIDecisionService.should_purchase fmt
        (trackedService tracker message.sender_id "unknown service") price).decision
          = false := by
      simp [AIDecisionService.should_purchase, not_le.mpr h3]
    simp only [HomeHubAgent.handle_payment_required, h1, h2, Option.getD_some,
      pyAsDict, pyAsNum, hdec, Bool.false_eq_true, if_false]

/-- Witness for the amended C8: delivery clears the concrete tracker
entry; the concrete decline leaves the tracker unchanged. -/
theorem c8_amended_witness :
    (trackerGet (HomeHubAgent.handle_service_delivered sodaTracker
        deliveredMsg).tracker deliveredMsg.sender_id = none
      ∧ (HomeHubAgent.handle_service_delivered sodaTracker deliveredMsg).response
          = none)
  ∧ (HomeHubAgent.handle_payment_required cFmt (some "0xkey") cMkHash
        sodaTracker payReqExpensive).tracker = sodaTracker :=
  ⟨c8_amended_entry_removed_only_on_delivery.1 sodaTracker deliveredMsg,
   c8_amended_entry_removed_only_on_delivery.2 cFmt (some "0xkey") cMkHash
     sodaTracker payReqExpensive
     [("price", .num 2), ("currency", .str "APT"), ("recipient", .str "0xseller"),
       ("network", .str "devnet")] 2
     (by with_unfolding_all rfl) (by with_unfolding_all rfl)
     (by norm_num [AIDecisionService.decision_threshold])⟩

/-- Claim C10: the purchase decision is a deterministic threshold
function: for every formatter, service name and price, the decision is
`true` exactly when the price is at most `1` APT (the fixed
`decision_threshold`), and two calls with the same arguments return the
same decision-info record — the same decision and the same reasoning
string — since `should_purchase` consults no mutable or random state. -/
theorem c10_should_purchase_is_deterministic_threshold :
    ∀ (fmt : ℚ → String) (service : String) (price : ℚ),
      ((AIDecisionService.should_purchase fmt service price).decision = true
        ↔ price ≤ 1)
    ∧ AIDecisionService.should_purchase fmt service price
        = AIDecisionService.should_purchase fmt service price := by
  intro fmt service price
  refine ⟨?_, rfl⟩
  have h1 : AIDecisionService.decision_threshold = 1 := by
    norm_num [AIDecisionService.decision_threshold]
  simp [AIDecisionService.should_purchase, h1]
